import Mathlib

/-!
Verification of the two-endmember linear mixture resolver
(`src/base/predict.py` of mineralogy-rocks/nir-parser).

The embedding uses exact rationals (`ℚ`) for the floating-point values of
the source: every numerical claim checked here is about the ideal real
arithmetic the code implements, with the source's epsilon guard kept
verbatim.  Tables mirror pandas `DataFrame`s: a list of column names plus
rows of cells, where a cell is either a number or a non-numeric (string)
value.  Fallible pandas/numpy operations (positional indexing past the
end, arithmetic on non-numeric cells) are embedded as `Except String`.
The scipy bounded scalar minimizer is external to the repository, so the
resolver is parameterized by an arbitrary optimizer
`opt : (ℚ → Except String ℚ) → ℚ`; theorems about optimizer-dependent
outputs assume only the documented contract (a point of [0,1] whose
objective value is within tolerance of optimal).
-/

namespace NirParser

/-- A cell of a table: numeric, or a non-numeric (malformed) value.
Arithmetic on a non-numeric cell raises in pandas; here `asNum` fails. -/
inductive Value where
  | num (q : ℚ)
  | str (s : String)
deriving DecidableEq, Repr

/-- A pandas `DataFrame`: column names and rows of cells.
Column 0 is the identifier column, columns 1.. are feature columns. -/
structure Table where
  cols : List String
  rows : List (List Value)
deriving DecidableEq, Repr

/-- Numeric view of one cell; models the `TypeError` pandas arithmetic
raises on a non-numeric entry. -/
def asNum : Value → Except String ℚ
  | Value.num q => Except.ok q
  | Value.str _ => Except.error "TypeError"

/-- Numeric view of a whole series, failing on the first non-numeric
entry. -/
def seriesToRat : List Value → Except String (List ℚ)
  | [] => Except.ok []
  | v :: vs =>
    match asNum v with
    | Except.error e => Except.error e
    | Except.ok q =>
      match seriesToRat vs with
      | Except.error e => Except.error e
      | Except.ok qs => Except.ok (q :: qs)

/-- Embedding of `df.iloc[i]`: positional row access, raising `IndexError` past the
end. -/
def getRow (t : Table) (i : Nat) : Except String (List Value) :=
  match t.rows.get? i with
  | some r => Except.ok r
  | none => Except.error "IndexError"

/-- Embedding of `series.iloc[1:]` followed by numeric coercion: drop the identifier
cell, require the feature cells numeric. -/
def featureVals (r : List Value) : Except String (List ℚ) :=
  seriesToRat (r.drop 1)

/-- The guard `epsilon = 1e-9` from `_calculate_ssr` (line 43). -/
def epsilon : ℚ := 1 / 1000000000

/-- Embedding of `np.clip(x, lo, hi)`. -/
def clip (x lo hi : ℚ) : ℚ := min (max x lo) hi

/-- One feature's relative residual (lines 44–47 of `predict.py`):
denominator is the average of observed and predicted, and the residual is
`(p - d) / denom` when `|denom| > epsilon`, else `0` (the `np.where`
guard). -/
def residual (d p : ℚ) : ℚ :=
  let denominator := (d + p) / 2
  if epsilon < |denominator| then (p - d) / denominator else 0

/-- The predicted mixture vector `e1*a1 + e2*a2` (line 38), elementwise on
positionally aligned features. -/
def predictedMix (a1 a2 : ℚ) (e1 e2 : List ℚ) : List ℚ :=
  List.zipWith (fun x y => x * a1 + y * a2) e1 e2

/-- The numeric core of `_calculate_ssr` (lines 29–51) on already-extracted
feature vectors: clip `a1` to [0,1], set `a2 = 1 - a1`, predict, take
per-feature residuals, square and sum. -/
def ssrOf (a1 : ℚ) (data_params endmember1_params endmember2_params : List ℚ) : ℚ :=
  let a1c := clip a1 0 1
  let a2 := 1 - a1c
  let predicted_params := predictedMix a1c a2 endmember1_params endmember2_params
  let residuals := List.zipWith residual data_params predicted_params
  (residuals.map (fun r => r ^ 2)).sum

/-- Embedding of `_calculate_ssr(a1, data, endmembers_df)` (lines 16–51): slice the two
endmember rows (`iloc[0]`, `iloc[1]` — `IndexError` when missing), strip
the identifier column of each series, coerce features to numbers
(`TypeError` on a malformed cell, in the order the pandas arithmetic
touches them), then the pure numeric core. -/
def calculate_ssr (a1 : ℚ) (data : List Value) (em : Table) : Except String ℚ :=
  match getRow em 0 with
  | Except.error e => Except.error e
  | Except.ok r1 =>
    match getRow em 1 with
    | Except.error e => Except.error e
    | Except.ok r2 =>
      match featureVals r1 with
      | Except.error e => Except.error e
      | Except.ok endmember1_params =>
        match featureVals r2 with
        | Except.error e => Except.error e
        | Except.ok endmember2_params =>
          match featureVals data with
          | Except.error e => Except.error e
          | Except.ok data_params =>
            Except.ok (ssrOf a1 data_params endmember1_params endmember2_params)

/-- Embedding of `_find_optimal_mixture(data, endmembers_df)` (lines 54–90),
parameterized by the external scipy bounded minimizer `opt` (it receives
the objective `a1 ↦ _calculate_ssr(a1, data, endmembers_df)` and returns
`result.x`).  `min_ssr` is the objective evaluated at the returned point
(`result.fun`); an exception from the objective propagates out of the
minimization.  The predicted mixture is recomputed at the unclipped
optimum (lines 85–88) and labelled with the endmember feature-column
names (`to_dict`). -/
def find_optimal_mixture (opt : (ℚ → Except String ℚ) → ℚ) (data : List Value)
    (em : Table) : Except String (ℚ × ℚ × ℚ × List (String × ℚ)) :=
  let a1_optimal := opt (fun a1 => calculate_ssr a1 data em)
  match calculate_ssr a1_optimal data em with
  | Except.error e => Except.error e
  | Except.ok min_ssr =>
    let a2_optimal := 1 - a1_optimal
    match getRow em 0 with
    | Except.error e => Except.error e
    | Except.ok r1 =>
      match getRow em 1 with
      | Except.error e => Except.error e
      | Except.ok r2 =>
        match featureVals r1 with
        | Except.error e => Except.error e
        | Except.ok endmember1_params =>
          match featureVals r2 with
          | Except.error e => Except.error e
          | Except.ok endmember2_params =>
            let predicted_params :=
              predictedMix a1_optimal a2_optimal endmember1_params endmember2_params
            Except.ok (a1_optimal, a2_optimal, min_ssr,
              (em.cols.drop 1).zip predicted_params)

/-- One output row of the result table (lines 122–128): identifier,
fractions, minimal SSR, and the predicted feature values. -/
structure ResultRec where
  id : Value
  a1 : ℚ
  a2 : ℚ
  ssr : ℚ
  mixture : List (String × ℚ)
deriving DecidableEq, Repr

/-- The body of the `try` block for one sample row (lines 118–129):
resolve the mixture, then read the row identifier `row.iloc[0]`; any
failure is the row's exception. -/
def resolveRow (opt : (ℚ → Except String ℚ) → ℚ) (em : Table)
    (row : List Value) : Except String ResultRec :=
  match find_optimal_mixture opt row em with
  | Except.error e => Except.error e
  | Except.ok (a1, a2, ssr, mixture) =>
    match row.head? with
    | none => Except.error "IndexError"
    | some row_id => Except.ok ⟨row_id, a1, a2, ssr, mixture⟩

/-- The diagnostic line logged for a failed row (line 132): it carries
the dataframe index of the row (the 0-based position, since `read_excel`
yields a default RangeIndex) and the formatted message. -/
def rowDiag (i : Nat) (e : String) : Nat × String :=
  (i, "Failed to process row " ++ toString i ++ ". Error: " ++ e)

/-- The batch loop (lines 116–132) as a fold over the indexed rows.  The
loop state carries the endmember table exactly as the Python locals do
(the source only reads it — `iloc` slicing and arithmetic build new
objects — so each iteration passes it on unchanged), plus the accumulated
result records and logged diagnostics. -/
def processRows (opt : (ℚ → Except String ℚ) → ℚ) (em : Table)
    (rows : List (List Value)) :
    Table × List ResultRec × List (Nat × String) :=
  rows.enum.foldl
    (fun st ir =>
      match resolveRow opt st.1 ir.2 with
      | Except.ok rec => (st.1, st.2.1 ++ [rec], st.2.2)
      | Except.error e => (st.1, st.2.1, st.2.2 ++ [rowDiag ir.1 e]))
    (em, [], [])

/-- Outcome of one run of `main` (lines 93–137): the structural error (if
the run aborted before the loop), the result table written to
`results_predicted.xlsx` (`none` when the run aborted before writing),
the per-row diagnostics, and whether the final
"Processing completed successfully" was reached. -/
structure RunOutcome where
  structuralError : Option String
  written : Option (List ResultRec)
  diags : List (Nat × String)
  completedOk : Bool
deriving DecidableEq, Repr

/-- Embedding of `main()` (lines 93–137) on the already-loaded tables.
`hasSecondSheet` stands for the file-level check on line 107 (the sample
workbook must have a second sheet).  Structural checks, in source order:
abort when the endmember table has MORE than two rows (line 101, `> 2`);
abort when the second sheet is missing; abort when the sample table's
feature-column count differs from the endmembers' (line 112).  Otherwise
run the batch loop and write the assembled table, reporting success. -/
def main (opt : (ℚ → Except String ℚ) → ℚ) (endmembers df : Table)
    (hasSecondSheet : Bool) : RunOutcome :=
  if 2 < endmembers.rows.length then
    ⟨some "Too many endmembers in the file. Should be only 2!", none, [], false⟩
  else if !hasSecondSheet then
    ⟨some "File doesn't have a second sheet necessary for calculations.", none, [], false⟩
  else if (df.cols.drop 1).length ≠ (endmembers.cols.drop 1).length then
    ⟨some "Number of parameters in the file doesn't match the number of parameters in the endmembers.", none, [], false⟩
  else
    let st := processRows opt endmembers df.rows
    ⟨none, some st.2.1, st.2.2, true⟩

/-- Modelled from the spec: the reference Residual Model of §4.1, written
per feature exactly as the spec words it — clamp `a1` to [0,1], set
`a2 = 1 - a1`, `p = e1*a1 + e2*a2` elementwise, per-feature residual
`(p - d)/((d + p)/2)` when `|(d + p)/2| > 1e-9` else `0`, and return the
sum of squared residuals over the features. -/
def specResiduals (a1 : ℚ) : List ℚ → List ℚ → List ℚ → List ℚ
  | d :: ds, x :: xs, y :: ys =>
    let p := x * a1 + y * (1 - a1)
    (if |(d + p) / 2| > epsilon then (p - d) / ((d + p) / 2) else 0) ::
      specResiduals a1 ds xs ys
  | _, _, _ => []

/-- Modelled from the spec: §4.1 steps 1–4 assembled — the reference SSR
against which `_calculate_ssr` is compared. -/
def specSSR (a1 : ℚ) (d e1 e2 : List ℚ) : ℚ :=
  let a := clip a1 0 1
  ((specResiduals a d e1 e2).map (fun r => r ^ 2)).sum

/-- A sample or endmember row whose identifier is `v` and whose feature
cells are the numbers `q`. -/
def numRow (v : Value) (q : List ℚ) : List Value :=
  v :: q.map Value.num

/-- A well-formed two-endmember table with numeric features. -/
def numTable (cols : List String) (v1 : Value) (e1 : List ℚ)
    (v2 : Value) (e2 : List ℚ) : Table :=
  ⟨cols, [numRow v1 e1, numRow v2 e2]⟩

lemma seriesToRat_map_num (l : List ℚ) :
    seriesToRat (l.map Value.num) = Except.ok l := by
  induction l with
  | nil => rfl
  | cons q qs ih => simp [seriesToRat, asNum, ih]

lemma featureVals_numRow (v : Value) (q : List ℚ) :
    featureVals (numRow v q) = Except.ok q := by
  simp [featureVals, numRow, seriesToRat_map_num]

lemma getRow_numTable_zero (cols : List String) (v1 : Value) (e1 : List ℚ)
    (v2 : Value) (e2 : List ℚ) :
    getRow (numTable cols v1 e1 v2 e2) 0 = Except.ok (numRow v1 e1) := rfl

lemma getRow_numTable_one (cols : List String) (v1 : Value) (e1 : List ℚ)
    (v2 : Value) (e2 : List ℚ) :
    getRow (numTable cols v1 e1 v2 e2) 1 = Except.ok (numRow v2 e2) := rfl

/-- On fully numeric inputs `_calculate_ssr` cannot raise: it returns the
pure numeric core. -/
lemma calculate_ssr_num (a1 : ℚ) (cols : List String) (v0 v1 v2 : Value)
    (d e1 e2 : List ℚ) :
    calculate_ssr a1 (numRow v0 d) (numTable cols v1 e1 v2 e2) =
      Except.ok (ssrOf a1 d e1 e2) := by
  simp [calculate_ssr, getRow_numTable_zero, getRow_numTable_one,
    featureVals_numRow]

lemma sumSquares_nonneg (l : List ℚ) : 0 ≤ (l.map (fun r => r ^ 2)).sum := by
  induction l with
  | nil => simp
  | cons x xs ih =>
    simp only [List.map_cons, List.sum_cons]
    have hx : 0 ≤ x ^ 2 := sq_nonneg x
    linarith

/-- The SSR is a sum of squares, hence non-negative for every candidate
fraction and every feature vectors. -/
lemma ssrOf_nonneg (a1 : ℚ) (d e1 e2 : List ℚ) : 0 ≤ ssrOf a1 d e1 e2 :=
  sumSquares_nonneg _

lemma residual_self (d : ℚ) : residual d d = 0 := by
  simp [residual]

lemma residual_degenerate (d p : ℚ) (h : |(d + p) / 2| ≤ epsilon) :
    residual d p = 0 := by
  unfold residual
  exact if_neg (not_lt.mpr h)

lemma ssrOf_cons (a1 d x y : ℚ) (ds xs ys : List ℚ) :
    ssrOf a1 (d :: ds) (x :: xs) (y :: ys) =
      (residual d (x * clip a1 0 1 + y * (1 - clip a1 0 1))) ^ 2 +
        ssrOf a1 ds xs ys := by
  simp [ssrOf, predictedMix]

lemma ssrOf_nil_left (a1 : ℚ) (e1 e2 : List ℚ) : ssrOf a1 [] e1 e2 = 0 := by
  simp [ssrOf, predictedMix]

lemma specResiduals_eq (a : ℚ) (d e1 e2 : List ℚ) :
    specResiduals a d e1 e2 =
      List.zipWith residual d (predictedMix a (1 - a) e1 e2) := by
  induction d generalizing e1 e2 with
  | nil => cases e1 <;> cases e2 <;> rfl
  | cons d0 ds ih =>
    cases e1 with
    | nil => rfl
    | cons x xs =>
      cases e2 with
      | nil => rfl
      | cons y ys =>
        simp only [specResiduals, predictedMix, List.zipWith, ih, residual]

lemma ssrOf_eq_specSSR (a1 : ℚ) (d e1 e2 : List ℚ) :
    ssrOf a1 d e1 e2 = specSSR a1 d e1 e2 := by
  simp only [ssrOf, specSSR, specResiduals_eq, predictedMix]

/-- **C3.** The Residual Model `_calculate_ssr(a1, d, E)` equals, for every
real `a1`, every sample feature vector `d` of length `n` and endmember
vectors `e1`, `e2` of length `n`, the reference definition of the spec
(clamp `a1` to [0,1], `a2 = 1 - a1`, `p = e1*a1 + e2*a2` elementwise,
`r_i = (p_i - d_i)/((d_i + p_i)/2)` when `|(d_i + p_i)/2| > 1e-9` else
`0`, summed squares) — a single non-negative scalar. -/
theorem C3_residual_model_refines_spec (a1 : ℚ) (n : Nat) (d e1 e2 : List ℚ)
    (cols : List String) (v0 v1 v2 : Value)
    (hd : d.length = n) (he1 : e1.length = n) (he2 : e2.length = n) :
    calculate_ssr a1 (numRow v0 d) (numTable cols v1 e1 v2 e2) =
      Except.ok (specSSR a1 d e1 e2) ∧ 0 ≤ specSSR a1 d e1 e2 := by
  refine ⟨?_, ?_⟩
  · rw [calculate_ssr_num, ssrOf_eq_specSSR]
  · rw [← ssrOf_eq_specSSR]
    exact ssrOf_nonneg a1 d e1 e2

/-- Witness for C3 at a concrete input. -/
theorem C3_residual_model_refines_spec_witness :
    calculate_ssr (1/3) (numRow (Value.str "S") [1, 2])
        (numTable ["id", "f1", "f2"] (Value.str "E1") [1, 0]
          (Value.str "E2") [0, 1]) =
      Except.ok (specSSR (1/3) [1, 2] [1, 0] [0, 1]) ∧
    0 ≤ specSSR (1/3) [1, 2] [1, 0] [0, 1] :=
  C3_residual_model_refines_spec (1/3) 2 [1, 2] [1, 0] [0, 1]
    ["id", "f1", "f2"] (Value.str "S") (Value.str "E1") (Value.str "E2")
    rfl rfl rfl

/-- **C8.** The squared per-feature residual, and hence the
sum-of-squared-residuals pipeline, is invariant under swapping which
operand plays "observed" and which plays "predicted": the denominator is
the averaged value regardless of argument order, and the swap negates
only the numerator, so each residual changes sign only. -/
theorem C8_swap_symmetry (d p : ℚ) (obs pred : List ℚ) :
    (d + p) / 2 = (p + d) / 2 ∧
    residual p d = - residual d p ∧
    (residual p d) ^ 2 = (residual d p) ^ 2 ∧
    ((List.zipWith residual obs pred).map (fun r => r ^ 2)).sum =
      ((List.zipWith residual pred obs).map (fun r => r ^ 2)).sum := by
  have hswap : ∀ a b : ℚ, residual b a = - residual a b := by
    intro a b
    unfold residual
    rw [add_comm b a]
    by_cases h : epsilon < |(a + b) / 2|
    · rw [if_pos h, if_pos h]; ring
    · rw [if_neg h, if_neg h]; ring
  have hsq : ∀ a b : ℚ, (residual b a) ^ 2 = (residual a b) ^ 2 := by
    intro a b; rw [hswap a b]; ring
  refine ⟨by ring, hswap d p, hsq d p, ?_⟩
  induction obs generalizing pred with
  | nil => cases pred <;> simp
  | cons o os ih =>
    cases pred with
    | nil => simp
    | cons q qs => simp [hsq, ih]

lemma ssrOf_erase_of_residual_zero (a1 : ℚ) :
    ∀ (i : Nat) (d e1 e2 : List ℚ) (di pi : ℚ),
      d.get? i = some di →
      (List.zipWith (fun x y => x * clip a1 0 1 + y * (1 - clip a1 0 1)) e1 e2).get? i
        = some pi →
      residual di pi = 0 →
      ssrOf a1 d e1 e2 = ssrOf a1 (d.eraseIdx i) (e1.eraseIdx i) (e2.eraseIdx i) := by
  intro i
  induction i with
  | zero =>
    intro d e1 e2 di pi hd hp hr
    cases d with
    | nil => simp at hd
    | cons d0 ds =>
      cases e1 with
      | nil => simp at hp
      | cons x xs =>
        cases e2 with
        | nil => simp at hp
        | cons y ys =>
          simp only [List.zipWith, List.get?] at hd hp
          injection hd with hd
          injection hp with hp
          subst hd
          simp only [List.eraseIdx]
          rw [ssrOf_cons, hp, hr]
          ring
  | succ i ih =>
    intro d e1 e2 di pi hd hp hr
    cases d with
    | nil => simp at hd
    | cons d0 ds =>
      cases e1 with
      | nil => simp at hp
      | cons x xs =>
        cases e2 with
        | nil => simp at hp
        | cons y ys =>
          simp only [List.zipWith, List.get?] at hd hp
          simp only [List.eraseIdx]
          rw [ssrOf_cons, ssrOf_cons]
          rw [ih ds xs ys di pi hd hp hr]

/-- **C5.** A feature whose normalization denominator `(d_i + p_i)/2` has
absolute value not exceeding `1e-9` (in particular both observed and
predicted `0`) contributes exactly `0` to the SSR: its residual is `0`,
removing the feature leaves the SSR unchanged, and `_calculate_ssr`
returns an ordinary finite value (no exception, no NaN/Infinity) on any
such numeric input. -/
theorem C5_degenerate_denominator_contributes_zero
    (a1 : ℚ) (d e1 e2 : List ℚ) (i : Nat) (di pi : ℚ)
    (cols : List String) (v0 v1 v2 : Value)
    (hd : d.get? i = some di)
    (hp : (predictedMix (clip a1 0 1) (1 - clip a1 0 1) e1 e2).get? i = some pi)
    (hdeg : |(di + pi) / 2| ≤ epsilon) :
    residual di pi = 0 ∧
    ssrOf a1 d e1 e2 =
      ssrOf a1 (d.eraseIdx i) (e1.eraseIdx i) (e2.eraseIdx i) ∧
    calculate_ssr a1 (numRow v0 d) (numTable cols v1 e1 v2 e2) =
      Except.ok (ssrOf a1 d e1 e2) := by
  have hr : residual di pi = 0 := residual_degenerate di pi hdeg
  exact ⟨hr, ssrOf_erase_of_residual_zero a1 i d e1 e2 di pi hd hp hr,
    calculate_ssr_num a1 cols v0 v1 v2 d e1 e2⟩

/-- Witness for C5: a feature that is `0` in both the sample and the
prediction contributes nothing. -/
theorem C5_degenerate_denominator_contributes_zero_witness :
    residual 0 0 = 0 ∧
    ssrOf (1/2) [0, 1] [0, 1] [0, 3] =
      ssrOf (1/2) ([0, 1].eraseIdx 0) ([0, 1].eraseIdx 0) ([0, 3].eraseIdx 0) ∧
    calculate_ssr (1/2) (numRow (Value.str "S") [0, 1])
        (numTable ["id", "f1", "f2"] (Value.str "E1") [0, 1]
          (Value.str "E2") [0, 3]) =
      Except.ok (ssrOf (1/2) [0, 1] [0, 1] [0, 3]) :=
  C5_degenerate_denominator_contributes_zero (1/2) [0, 1] [0, 1] [0, 3] 0 0 0
    ["id", "f1", "f2"] (Value.str "S") (Value.str "E1") (Value.str "E2")
    (by decide)
    (by
      have hc : clip (1/2 : ℚ) 0 1 = 1/2 := by
        unfold clip
        rw [max_eq_left (by norm_num), min_eq_left (by norm_num)]
      simp [predictedMix, hc])
    (by norm_num [epsilon])

lemma clip_of_Icc (x : ℚ) (h0 : 0 ≤ x) (h1 : x ≤ 1) : clip x 0 1 = x := by
  unfold clip
  rw [max_eq_left h0, min_eq_left h1]

lemma clip_one : clip (1 : ℚ) 0 1 = 1 :=
  clip_of_Icc 1 (by norm_num) (by norm_num)

lemma clip_zero : clip (0 : ℚ) 0 1 = 0 :=
  clip_of_Icc 0 (by norm_num) (by norm_num)

lemma sum_residual_fst : ∀ (d e2 : List ℚ),
    ((List.zipWith residual d (predictedMix 1 0 d e2)).map (fun r => r ^ 2)).sum = 0 := by
  intro d
  induction d with
  | nil => intro e2; simp [predictedMix]
  | cons d0 ds ih =>
    intro e2
    cases e2 with
    | nil => simp [predictedMix]
    | cons y ys =>
      have hhead : d0 * 1 + y * 0 = d0 := by ring
      simp only [predictedMix, List.zipWith, List.map_cons, List.sum_cons, hhead,
        residual_self]
      have htail := ih ys
      simp only [predictedMix] at htail
      simpa using htail

lemma sum_residual_snd : ∀ (d e1 : List ℚ),
    ((List.zipWith residual d (predictedMix 0 1 e1 d)).map (fun r => r ^ 2)).sum = 0 := by
  intro d
  induction d with
  | nil => intro e1; cases e1 <;> simp [predictedMix]
  | cons d0 ds ih =>
    intro e1
    cases e1 with
    | nil => simp [predictedMix]
    | cons x xs =>
      have hhead : x * 0 + d0 * 1 = d0 := by ring
      simp only [predictedMix, List.zipWith, List.map_cons, List.sum_cons, hhead,
        residual_self]
      have htail := ih xs
      simp only [predictedMix] at htail
      simpa using htail

/-- With the sample equal to the first endmember, the objective is exactly
`0` at `a1 = 1`. -/
lemma ssrOf_match_one (e1 e2 : List ℚ) : ssrOf 1 e1 e1 e2 = 0 := by
  unfold ssrOf
  rw [clip_one]
  norm_num
  exact sum_residual_fst e1 e2

/-- With the sample equal to the second endmember, the objective is exactly
`0` at `a1 = 0`. -/
lemma ssrOf_match_zero (e1 e2 : List ℚ) : ssrOf 0 e2 e1 e2 = 0 := by
  unfold ssrOf
  rw [clip_zero]
  norm_num
  exact sum_residual_snd e2 e1

/-- On numeric inputs the resolver returns exactly the optimizer's point
`x`, the complement `1 - x`, the objective at `x`, and the labelled
predicted mixture at the (unclipped) `x`. -/
lemma numTable_cols (cols : List String) (v1 : Value) (e1 : List ℚ)
    (v2 : Value) (e2 : List ℚ) : (numTable cols v1 e1 v2 e2).cols = cols := rfl

lemma find_optimal_mixture_num (opt : (ℚ → Except String ℚ) → ℚ)
    (cols : List String) (v0 v1 v2 : Value) (d e1 e2 : List ℚ) (x : ℚ)
    (hx : x = opt (fun a1 => calculate_ssr a1 (numRow v0 d) (numTable cols v1 e1 v2 e2))) :
    find_optimal_mixture opt (numRow v0 d) (numTable cols v1 e1 v2 e2) =
      Except.ok (x, 1 - x, ssrOf x d e1 e2,
        (cols.drop 1).zip (predictedMix x (1 - x) e1 e2)) := by
  subst hx
  simp only [find_optimal_mixture, calculate_ssr_num, getRow_numTable_zero,
    getRow_numTable_one, featureVals_numRow, numTable_cols]

lemma resolveRow_num (opt : (ℚ → Except String ℚ) → ℚ)
    (cols : List String) (v0 v1 v2 : Value) (d e1 e2 : List ℚ) (x : ℚ)
    (hx : x = opt (fun a1 => calculate_ssr a1 (numRow v0 d) (numTable cols v1 e1 v2 e2))) :
    resolveRow opt (numTable cols v1 e1 v2 e2) (numRow v0 d) =
      Except.ok ⟨v0, x, 1 - x, ssrOf x d e1 e2,
        (cols.drop 1).zip (predictedMix x (1 - x) e1 e2)⟩ := by
  rw [resolveRow, find_optimal_mixture_num opt cols v0 v1 v2 d e1 e2 x hx]
  rfl

/-- **C4.** For a sample row whose feature vector equals `e1` exactly,
the objective `_calculate_ssr` evaluates to exactly `0` at `a1 = 1`
(symmetrically to `0` at `a1 = 0` for a row equal to `e2`), which
together with non-negativity makes the matching fraction a global
minimum; and for any optimizer meeting the bounded-minimizer contract
(returning `x` in `[0,1]` whose objective value is within `tol` of
optimal), the resolver returns that `x` with `a2 = 1 - x` and an `ssr`
at most `tol`, and `x` is within any `δ` that the objective separates at
level `tol` — so `a1 ≈ 1` (resp. `a1 ≈ 0`) and `ssr ≈ 0` up to the
optimizer tolerance. -/
theorem C4_exact_endmember_recovery
    (opt : (ℚ → Except String ℚ) → ℚ) (cols : List String)
    (vA vB v1 v2 : Value) (e1 e2 : List ℚ) (tol δ : ℚ) (xA xB : ℚ)
    (hxA : xA = opt (fun a1 =>
      calculate_ssr a1 (numRow vA e1) (numTable cols v1 e1 v2 e2)))
    (hxB : xB = opt (fun a1 =>
      calculate_ssr a1 (numRow vB e2) (numTable cols v1 e1 v2 e2)))
    (hA : ∀ y ∈ Set.Icc (0 : ℚ) 1, ssrOf xA e1 e1 e2 ≤ ssrOf y e1 e1 e2 + tol)
    (hB : ∀ y ∈ Set.Icc (0 : ℚ) 1, ssrOf xB e2 e1 e2 ≤ ssrOf y e2 e1 e2 + tol)
    (hmA : xA ∈ Set.Icc (0 : ℚ) 1) (hmB : xB ∈ Set.Icc (0 : ℚ) 1)
    (hGA : ∀ y ∈ Set.Icc (0 : ℚ) 1, δ < |y - 1| → tol < ssrOf y e1 e1 e2)
    (hGB : ∀ y ∈ Set.Icc (0 : ℚ) 1, δ < |y| → tol < ssrOf y e2 e1 e2) :
    ssrOf 1 e1 e1 e2 = 0 ∧ ssrOf 0 e2 e1 e2 = 0 ∧
    (∀ x dp, 0 ≤ ssrOf x dp e1 e2) ∧
    (∀ x, ssrOf 1 e1 e1 e2 ≤ ssrOf x e1 e1 e2) ∧
    (∀ x, ssrOf 0 e2 e1 e2 ≤ ssrOf x e2 e1 e2) ∧
    find_optimal_mixture opt (numRow vA e1) (numTable cols v1 e1 v2 e2) =
      Except.ok (xA, 1 - xA, ssrOf xA e1 e1 e2,
        (cols.drop 1).zip (predictedMix xA (1 - xA) e1 e2)) ∧
    find_optimal_mixture opt (numRow vB e2) (numTable cols v1 e1 v2 e2) =
      Except.ok (xB, 1 - xB, ssrOf xB e2 e1 e2,
        (cols.drop 1).zip (predictedMix xB (1 - xB) e1 e2)) ∧
    ssrOf xA e1 e1 e2 ≤ tol ∧ ssrOf xB e2 e1 e2 ≤ tol ∧
    |xA - 1| ≤ δ ∧ |xB| ≤ δ := by
  have h1 : ssrOf 1 e1 e1 e2 = 0 := ssrOf_match_one e1 e2
  have h0 : ssrOf 0 e2 e1 e2 = 0 := ssrOf_match_zero e1 e2
  have hA1 : ssrOf xA e1 e1 e2 ≤ tol := by
    have := hA 1 ⟨by norm_num, by norm_num⟩
    rw [h1] at this
    linarith
  have hB0 : ssrOf xB e2 e1 e2 ≤ tol := by
    have := hB 0 ⟨by norm_num, by norm_num⟩
    rw [h0] at this
    linarith
  refine ⟨h1, h0, fun x dp => ssrOf_nonneg x dp e1 e2,
    fun x => by rw [h1]; exact ssrOf_nonneg x e1 e1 e2,
    fun x => by rw [h0]; exact ssrOf_nonneg x e2 e1 e2,
    find_optimal_mixture_num opt cols vA v1 v2 e1 e1 e2 xA hxA,
    find_optimal_mixture_num opt cols vB v1 v2 e2 e1 e2 xB hxB,
    hA1, hB0, ?_, ?_⟩
  · by_contra hcon
    push_neg at hcon
    exact absurd hA1 (not_le.mpr (hGA xA hmA hcon))
  · by_contra hcon
    push_neg at hcon
    exact absurd hB0 (not_le.mpr (hGB xB hmB hcon))

lemma residual_eval (d p : ℚ) (h : epsilon < |(d + p) / 2|) :
    residual d p = (p - d) / ((d + p) / 2) := by
  unfold residual
  exact if_pos h

deriving instance DecidableEq for Except

/-- A concrete optimizer satisfying the bounded-minimizer contract on the
witness inputs: it probes the objective at `1` and returns `1` when the
objective is `0` there, else `0`. -/
def wOpt : (ℚ → Except String ℚ) → ℚ :=
  fun f => if f 1 = Except.ok 0 then 1 else 0

/-- Concrete two-endmember table for witnesses. -/
def wEm : Table :=
  numTable ["id", "f1", "f2"] (Value.str "EM1") [1, 2] (Value.str "EM2") [3, 4]

lemma wSSR_B : ssrOf 1 [3, 4] [1, 2] [3, 4] = 13 / 9 := by
  have hr1 : residual 3 1 = -1 := by
    rw [residual_eval 3 1 (by rw [abs_of_nonneg (by norm_num)]; norm_num [epsilon])]
    norm_num
  have hr2 : residual 4 2 = -(2 / 3) := by
    rw [residual_eval 4 2 (by rw [abs_of_nonneg (by norm_num)]; norm_num [epsilon])]
    norm_num
  unfold ssrOf
  rw [clip_one]
  norm_num [predictedMix]
  rw [hr1, hr2]
  norm_num

lemma wOpt_A : (1 : ℚ) = wOpt (fun a1 =>
    calculate_ssr a1 (numRow (Value.str "SA") [1, 2]) wEm) := by
  have hobj : calculate_ssr 1 (numRow (Value.str "SA") [1, 2]) wEm =
      Except.ok 0 := by
    rw [wEm, calculate_ssr_num, ssrOf_match_one]
  simp [wOpt, hobj]

lemma wOpt_B : (0 : ℚ) = wOpt (fun a1 =>
    calculate_ssr a1 (numRow (Value.str "SB") [3, 4]) wEm) := by
  have hobj : calculate_ssr 1 (numRow (Value.str "SB") [3, 4]) wEm =
      Except.ok (13 / 9) := by
    rw [wEm, calculate_ssr_num, wSSR_B]
  simp only [wOpt, hobj]
  norm_num

/-- Witness for C4: both perfect-match rows on a concrete table, with a
concrete contract-satisfying optimizer, `tol = 0` and `δ = 2`. -/
theorem C4_exact_endmember_recovery_witness :
    ssrOf 1 [1, 2] [1, 2] [3, 4] = 0 ∧ ssrOf 0 [3, 4] [1, 2] [3, 4] = 0 ∧
    (∀ x dp, 0 ≤ ssrOf x dp [1, 2] [3, 4]) ∧
    (∀ x, ssrOf 1 [1, 2] [1, 2] [3, 4] ≤ ssrOf x [1, 2] [1, 2] [3, 4]) ∧
    (∀ x, ssrOf 0 [3, 4] [1, 2] [3, 4] ≤ ssrOf x [3, 4] [1, 2] [3, 4]) ∧
    find_optimal_mixture wOpt (numRow (Value.str "SA") [1, 2]) wEm =
      Except.ok (1, 1 - 1, ssrOf 1 [1, 2] [1, 2] [3, 4],
        ((["id", "f1", "f2"] : List String).drop 1).zip
          (predictedMix 1 (1 - 1) [1, 2] [3, 4])) ∧
    find_optimal_mixture wOpt (numRow (Value.str "SB") [3, 4]) wEm =
      Except.ok (0, 1 - 0, ssrOf 0 [3, 4] [1, 2] [3, 4],
        ((["id", "f1", "f2"] : List String).drop 1).zip
          (predictedMix 0 (1 - 0) [1, 2] [3, 4])) ∧
    ssrOf 1 [1, 2] [1, 2] [3, 4] ≤ 0 ∧ ssrOf 0 [3, 4] [1, 2] [3, 4] ≤ 0 ∧
    |(1 : ℚ) - 1| ≤ 2 ∧ |(0 : ℚ)| ≤ 2 :=
  C4_exact_endmember_recovery wOpt ["id", "f1", "f2"]
    (Value.str "SA") (Value.str "SB") (Value.str "EM1") (Value.str "EM2")
    [1, 2] [3, 4] 0 2 1 0 wOpt_A wOpt_B
    (by
      intro y _
      rw [ssrOf_match_one]
      simpa using ssrOf_nonneg y [1, 2] [1, 2] [3, 4])
    (by
      intro y _
      rw [ssrOf_match_zero]
      simpa using ssrOf_nonneg y [3, 4] [1, 2] [3, 4])
    (by constructor <;> norm_num)
    (by constructor <;> norm_num)
    (by
      intro y hy habs
      exfalso
      rw [abs_of_nonpos (by linarith [hy.2])] at habs
      linarith [hy.1])
    (by
      intro y hy habs
      exfalso
      rw [abs_of_nonneg hy.1] at habs
      linarith [hy.2])

lemma processRows_foldl (opt : (ℚ → Except String ℚ) → ℚ) (em : Table) :
    ∀ (l : List (Nat × List Value)) (acc1 : List ResultRec)
      (acc2 : List (Nat × String)),
      l.foldl
        (fun st ir =>
          match resolveRow opt st.1 ir.2 with
          | Except.ok rec => (st.1, st.2.1 ++ [rec], st.2.2)
          | Except.error e => (st.1, st.2.1, st.2.2 ++ [rowDiag ir.1 e]))
        (em, acc1, acc2) =
      (em,
       acc1 ++ l.filterMap (fun ir => (resolveRow opt em ir.2).toOption),
       acc2 ++ l.filterMap (fun ir =>
         match resolveRow opt em ir.2 with
         | Except.ok _ => none
         | Except.error e => some (rowDiag ir.1 e))) := by
  intro l
  induction l with
  | nil => intro acc1 acc2; simp
  | cons ir rest ih =>
    intro acc1 acc2
    simp only [List.foldl_cons, List.filterMap_cons]
    cases hres : resolveRow opt em ir.2 with
    | ok rec =>
      simp only [hres, Except.toOption, ih, List.append_assoc, List.cons_append,
        List.nil_append]
    | error e =>
      simp only [hres, Except.toOption, ih, List.append_assoc, List.cons_append,
        List.nil_append]

lemma enumFrom_filterMap_snd {α β : Type} (g : α → Option β) :
    ∀ (n : Nat) (l : List α),
      (List.enumFrom n l).filterMap (fun p => g p.2) = l.filterMap g := by
  intro n l
  induction l generalizing n with
  | nil => rfl
  | cons a as ih =>
    cases hga : g a <;>
      simp [List.enumFrom, List.filterMap_cons, hga, ih]

/-- Closed form of the batch loop: the endmember table comes out exactly
as it went in, the result records are the successful rows' records in
input order, and the diagnostics are the failing rows' indexed entries in
input order. -/
lemma processRows_spec (opt : (ℚ → Except String ℚ) → ℚ) (em : Table)
    (rows : List (List Value)) :
    processRows opt em rows =
      (em,
       rows.filterMap (fun r => (resolveRow opt em r).toOption),
       rows.enum.filterMap (fun ir =>
         match resolveRow opt em ir.2 with
         | Except.ok _ => none
         | Except.error e => some (rowDiag ir.1 e))) := by
  unfold processRows
  rw [processRows_foldl]
  simp only [List.nil_append]
  rw [List.enum, enumFrom_filterMap_snd (fun r => (resolveRow opt em r).toOption) 0]

lemma main_abort_rows (opt : (ℚ → Except String ℚ) → ℚ) (em df : Table)
    (hs : Bool) (h : 2 < em.rows.length) :
    main opt em df hs =
      ⟨some "Too many endmembers in the file. Should be only 2!",
       none, [], false⟩ := by
  unfold main
  rw [if_pos h]

lemma main_abort_cols (opt : (ℚ → Except String ℚ) → ℚ) (em df : Table)
    (h1 : ¬ 2 < em.rows.length)
    (h : (df.cols.drop 1).length ≠ (em.cols.drop 1).length) :
    main opt em df true =
      ⟨some "Number of parameters in the file doesn't match the number of parameters in the endmembers.",
       none, [], false⟩ := by
  unfold main
  rw [if_neg h1]
  simp only [Bool.not_true]
  rw [if_neg (by simp), if_pos h]

/-- Closed form of a validated run: no structural error, the loop's
results written, the loop's diagnostics logged, success reported. -/
lemma main_run (opt : (ℚ → Except String ℚ) → ℚ) (em df : Table)
    (h2 : ¬ 2 < em.rows.length)
    (hc : (df.cols.drop 1).length = (em.cols.drop 1).length) :
    main opt em df true =
      ⟨none,
       some (df.rows.filterMap (fun r => (resolveRow opt em r).toOption)),
       df.rows.enum.filterMap (fun ir =>
         match resolveRow opt em ir.2 with
         | Except.ok _ => none
         | Except.error e => some (rowDiag ir.1 e)),
       true⟩ := by
  unfold main
  rw [if_neg h2]
  simp only [Bool.not_true]
  rw [if_neg (by simp), if_neg (not_not_intro hc), processRows_spec]

/-- **C1 (amended).** Structural validation happens once, before any row
is processed, and a structural error aborts the run with nothing written
and no rows resolved — but the endmember-row check is one-sided: the run
aborts exactly when the endmember table has MORE than 2 rows or the
feature-column counts mismatch.  An endmember table with fewer than 2
rows passes validation (rows then fail individually inside the loop). -/
theorem C1_structural_validation (opt : (ℚ → Except String ℚ) → ℚ)
    (em df : Table) :
    ((main opt em df true).structuralError ≠ none ↔
      2 < em.rows.length ∨
        (df.cols.drop 1).length ≠ (em.cols.drop 1).length) ∧
    (2 < em.rows.length ∨
        (df.cols.drop 1).length ≠ (em.cols.drop 1).length →
      (main opt em df true).written = none ∧
      (main opt em df true).diags = [] ∧
      (main opt em df true).completedOk = false) := by
  by_cases h1 : 2 < em.rows.length
  · rw [main_abort_rows opt em df true h1]
    exact ⟨⟨fun _ => Or.inl h1, fun _ => by simp⟩, fun _ => ⟨rfl, rfl, rfl⟩⟩
  · by_cases h2 : (df.cols.drop 1).length = (em.cols.drop 1).length
    · rw [main_run opt em df h1 h2]
      constructor
      · constructor
        · intro hne
          exact absurd rfl hne
        · intro hor
          rcases hor with h | h
          · exact absurd h h1
          · exact absurd h2 h
      · intro hor
        rcases hor with h | h
        · exact absurd h h1
        · exact absurd h2 h
    · rw [main_abort_cols opt em df h1 h2]
      exact ⟨⟨fun _ => Or.inr h2, fun _ => by simp⟩, fun _ => ⟨rfl, rfl, rfl⟩⟩

/-- Witness for C1's amended theorem: a 3-row endmember table aborts the
run before anything is written. -/
theorem C1_structural_validation_witness :
    (main (fun _ => 0)
        ⟨["id", "f1"], [numRow (Value.str "A") [1], numRow (Value.str "B") [2],
          numRow (Value.str "C") [3]]⟩
        ⟨["id", "f1"], [numRow (Value.str "S1") [5]]⟩ true).written = none ∧
    (main (fun _ => 0)
        ⟨["id", "f1"], [numRow (Value.str "A") [1], numRow (Value.str "B") [2],
          numRow (Value.str "C") [3]]⟩
        ⟨["id", "f1"], [numRow (Value.str "S1") [5]]⟩ true).diags = [] ∧
    (main (fun _ => 0)
        ⟨["id", "f1"], [numRow (Value.str "A") [1], numRow (Value.str "B") [2],
          numRow (Value.str "C") [3]]⟩
        ⟨["id", "f1"], [numRow (Value.str "S1") [5]]⟩ true).completedOk = false :=
  (C1_structural_validation (fun _ => 0)
      ⟨["id", "f1"], [numRow (Value.str "A") [1], numRow (Value.str "B") [2],
        numRow (Value.str "C") [3]]⟩
      ⟨["id", "f1"], [numRow (Value.str "S1") [5]]⟩).2
    (Or.inl (by decide))

/-- Counterexample to C1 as stated: an endmember table with exactly 1 row
(so not exactly 2) does NOT abort the run — validation passes, the row is
processed (and fails individually), the empty result table is written and
the run reports successful completion. -/
theorem C1_counterexample :
    (⟨["id", "f1"], [numRow (Value.str "EM1") [1]]⟩ : Table).rows.length ≠ 2 ∧
    (main (fun _ => 0) ⟨["id", "f1"], [numRow (Value.str "EM1") [1]]⟩
        ⟨["id", "f1"], [numRow (Value.str "S1") [5]]⟩ true).structuralError
      = none ∧
    (main (fun _ => 0) ⟨["id", "f1"], [numRow (Value.str "EM1") [1]]⟩
        ⟨["id", "f1"], [numRow (Value.str "S1") [5]]⟩ true).completedOk
      = true ∧
    (main (fun _ => 0) ⟨["id", "f1"], [numRow (Value.str "EM1") [1]]⟩
        ⟨["id", "f1"], [numRow (Value.str "S1") [5]]⟩ true).written
      = some [] := by
  refine ⟨by decide, ?_, ?_, ?_⟩ <;> rfl

/-- **C2.** A validated batch run never aborts on a per-row failure: it
reports no structural error, reaches successful completion, and the
written table holds exactly one record per successfully resolved row, in
input order with the skipped rows removed. -/
theorem C2_per_row_failure_isolation (opt : (ℚ → Except String ℚ) → ℚ)
    (em df : Table)
    (h2 : ¬ 2 < em.rows.length)
    (hc : (df.cols.drop 1).length = (em.cols.drop 1).length) :
    (main opt em df true).structuralError = none ∧
    (main opt em df true).completedOk = true ∧
    (main opt em df true).written =
      some (df.rows.filterMap (fun r => (resolveRow opt em r).toOption)) := by
  rw [main_run opt em df h2 hc]
  exact ⟨rfl, rfl, rfl⟩

/-- Concrete sample table for witnesses: a good row, a malformed row, a
good row. -/
def wDf : Table :=
  ⟨["id", "f1", "f2"],
   [numRow (Value.str "S1") [1, 2],
    [Value.str "S2", Value.str "bad", Value.num 3],
    numRow (Value.str "S3") [3, 4]]⟩

/-- Witness for C2 on a concrete batch containing a malformed row. -/
theorem C2_per_row_failure_isolation_witness :
    (main wOpt wEm wDf true).structuralError = none ∧
    (main wOpt wEm wDf true).completedOk = true ∧
    (main wOpt wEm wDf true).written =
      some (wDf.rows.filterMap (fun r => (resolveRow wOpt wEm r).toOption)) :=
  C2_per_row_failure_isolation wOpt wEm wDf (by decide) (by decide)

lemma find_optimal_mixture_ok_sum (opt : (ℚ → Except String ℚ) → ℚ)
    (row : List Value) (em : Table) (out : ℚ × ℚ × ℚ × List (String × ℚ))
    (h : find_optimal_mixture opt row em = Except.ok out) :
    out.1 + out.2.1 = 1 := by
  simp only [find_optimal_mixture] at h
  repeat' split at h
  all_goals first
    | exact Except.noConfusion h
    | (injection h with h
       rw [← h]
       norm_num)

lemma resolveRow_ok_sum (opt : (ℚ → Except String ℚ) → ℚ) (em : Table)
    (row : List Value) (rec : ResultRec)
    (h : resolveRow opt em row = Except.ok rec) :
    rec.a1 + rec.a2 = 1 := by
  unfold resolveRow at h
  split at h
  · exact Except.noConfusion h
  · next a1 a2 ssr mixture hfind =>
    split at h
    · exact Except.noConfusion h
    · injection h with h
      rw [← h]
      exact find_optimal_mixture_ok_sum opt row em (a1, a2, ssr, mixture) hfind

lemma toOption_eq_some {rec : ResultRec} {x : Except String ResultRec}
    (h : x.toOption = some rec) : x = Except.ok rec := by
  cases x with
  | ok a => simpa [Except.toOption] using h
  | error e => simp [Except.toOption] at h

/-- **C6.** The returned fractions always satisfy `a1 + a2 = 1` exactly,
by construction (`a2 := 1 - a1` from the optimizer's `a1`): for the
resolver's raw tuple, and for every record of the batch run's written
result table. -/
theorem C6_fractions_sum_to_one (opt : (ℚ → Except String ℚ) → ℚ)
    (row : List Value) (em df : Table) (hasSheet : Bool)
    (out : ℚ × ℚ × ℚ × List (String × ℚ)) (res : List ResultRec)
    (r : ResultRec)
    (hfind : find_optimal_mixture opt row em = Except.ok out)
    (hw : (main opt em df hasSheet).written = some res)
    (hr : r ∈ res) :
    out.1 + out.2.1 = 1 ∧ r.a1 + r.a2 = 1 := by
  refine ⟨find_optimal_mixture_ok_sum opt row em out hfind, ?_⟩
  by_cases h1 : 2 < em.rows.length
  · rw [main_abort_rows opt em df hasSheet h1] at hw
    exact absurd hw (by simp)
  · cases hasSheet with
    | false =>
      have habort : main opt em df false =
          ⟨some "File doesn't have a second sheet necessary for calculations.",
           none, [], false⟩ := by
        unfold main
        rw [if_neg h1]
        simp
      rw [habort] at hw
      exact absurd hw (by simp)
    | true =>
      by_cases h3 : (df.cols.drop 1).length = (em.cols.drop 1).length
      · rw [main_run opt em df h1 h3] at hw
        simp only [Option.some.injEq] at hw
        rw [← hw] at hr
        obtain ⟨rowr, _, hres⟩ := List.mem_filterMap.mp hr
        exact resolveRow_ok_sum opt em rowr r (toOption_eq_some hres)
      · rw [main_abort_cols opt em df h1 h3] at hw
        exact absurd hw (by simp)

/-- Witness record for C6: the resolver output on the perfect-match row. -/
def wRec : ResultRec :=
  ⟨Value.str "SA", 1, 1 - 1, ssrOf 1 [1, 2] [1, 2] [3, 4],
   ((["id", "f1", "f2"] : List String).drop 1).zip
     (predictedMix 1 (1 - 1) [1, 2] [3, 4])⟩

/-- Single-good-row sample table for the C6 witness. -/
def wDfA : Table := ⟨["id", "f1", "f2"], [numRow (Value.str "SA") [1, 2]]⟩

lemma wResolve :
    resolveRow wOpt wEm (numRow (Value.str "SA") [1, 2]) = Except.ok wRec := by
  rw [wEm, wRec]
  exact resolveRow_num wOpt ["id", "f1", "f2"] (Value.str "SA")
    (Value.str "EM1") (Value.str "EM2") [1, 2] [1, 2] [3, 4] 1
    (by rw [← wEm]; exact wOpt_A)

lemma wMainA :
    (main wOpt wEm wDfA true).written = some [wRec] := by
  rw [main_run wOpt wEm wDfA (by decide) (by decide)]
  show some (List.filterMap _ _) = _
  rw [wDfA]
  simp only [List.filterMap_cons, List.filterMap_nil, wResolve, Except.toOption]

/-- Witness for C6 on the concrete perfect-match run. -/
theorem C6_fractions_sum_to_one_witness :
    ((1 : ℚ), (1 : ℚ) - 1, ssrOf 1 [1, 2] [1, 2] [3, 4],
        ((["id", "f1", "f2"] : List String).drop 1).zip
          (predictedMix 1 (1 - 1) [1, 2] [3, 4])).1 +
      ((1 : ℚ), (1 : ℚ) - 1, ssrOf 1 [1, 2] [1, 2] [3, 4],
        ((["id", "f1", "f2"] : List String).drop 1).zip
          (predictedMix 1 (1 - 1) [1, 2] [3, 4])).2.1 = 1 ∧
    wRec.a1 + wRec.a2 = 1 :=
  C6_fractions_sum_to_one wOpt (numRow (Value.str "SA") [1, 2]) wEm wDfA true
    _ [wRec] wRec
    (by
      rw [wEm]
      exact find_optimal_mixture_num wOpt ["id", "f1", "f2"] (Value.str "SA")
        (Value.str "EM1") (Value.str "EM2") [1, 2] [1, 2] [3, 4] 1
        (by rw [← wEm]; exact wOpt_A))
    wMainA (by simp)

/-- **C7 (amended).** A validated run's diagnostics are exactly one entry
per failed row, in input order, and each entry carries the failed row's
dataframe index (its 0-based position in the sample table) in both the
logged index and the message — not the row's first-column id value.
Attribution is by position, which is unambiguous under sequential
processing. -/
theorem C7_diagnostics_carry_row_index (opt : (ℚ → Except String ℚ) → ℚ)
    (em df : Table)
    (h2 : ¬ 2 < em.rows.length)
    (hc : (df.cols.drop 1).length = (em.cols.drop 1).length) :
    (main opt em df true).diags =
      df.rows.enum.filterMap (fun ir =>
        match resolveRow opt em ir.2 with
        | Except.ok _ => none
        | Except.error e => some (rowDiag ir.1 e)) := by
  rw [main_run opt em df h2 hc]

/-- Witness for C7's amended theorem on the concrete mixed batch. -/
theorem C7_diagnostics_carry_row_index_witness :
    (main wOpt wEm wDf true).diags =
      wDf.rows.enum.filterMap (fun ir =>
        match resolveRow wOpt wEm ir.2 with
        | Except.ok _ => none
        | Except.error e => some (rowDiag ir.1 e)) :=
  C7_diagnostics_carry_row_index wOpt wEm wDf (by decide) (by decide)

/-- Counterexample to C7 as stated: two runs whose single failing row has
a different first-column id ("S1" vs "S2") emit IDENTICAL diagnostics,
namely the entry `(0, "Failed to process row 0. Error: TypeError")`
naming the dataframe index `0` — so the diagnostic entry does not name
the row's first-column identifier. -/
theorem C7_counterexample :
    (main (fun _ => 0) wEm
        ⟨["id", "f1", "f2"],
         [[Value.str "S1", Value.str "bad", Value.num 3]]⟩ true).diags =
      [(0, "Failed to process row 0. Error: TypeError")] ∧
    (main (fun _ => 0) wEm
        ⟨["id", "f1", "f2"],
         [[Value.str "S2", Value.str "bad", Value.num 3]]⟩ true).diags =
      [(0, "Failed to process row 0. Error: TypeError")] ∧
    ((⟨["id", "f1", "f2"],
        [[Value.str "S1", Value.str "bad", Value.num 3]]⟩ : Table).rows.headD
          []).head? = some (Value.str "S1") ∧
    ((⟨["id", "f1", "f2"],
        [[Value.str "S2", Value.str "bad", Value.num 3]]⟩ : Table).rows.headD
          []).head? = some (Value.str "S2") ∧
    Value.str "S1" ≠ Value.str "S2" := by
  refine ⟨?_, ?_, by decide, by decide, by decide⟩ <;> rfl

/-- **C9.** Neither the SSR computation nor the mixture resolution mutates
its inputs: the batch loop, which threads the endmember table through
every iteration exactly as the source passes its `DataFrame` (the source
performs only reads), returns the table unchanged after the whole batch,
and every row's outcome equals resolving that row against the original
validated table — there is no cross-row effect through shared state. -/
theorem C9_no_input_mutation (opt : (ℚ → Except String ℚ) → ℚ)
    (em : Table) (rows : List (List Value)) :
    (processRows opt em rows).1 = em ∧
    (processRows opt em rows).2.1 =
      rows.filterMap (fun r => (resolveRow opt em r).toOption) ∧
    (processRows opt em rows).2.2 =
      rows.enum.filterMap (fun ir =>
        match resolveRow opt em ir.2 with
        | Except.ok _ => none
        | Except.error e => some (rowDiag ir.1 e)) := by
  rw [processRows_spec]
  exact ⟨rfl, rfl, rfl⟩

/-- **C10.** Even when every sample row fails to resolve, a validated run
still assembles the (then empty) result table, writes it, and reports
successful completion: the completion status does not depend on how many
rows succeeded. -/
theorem C10_all_rows_failing_still_completes (opt : (ℚ → Except String ℚ) → ℚ)
    (em df : Table)
    (h2 : ¬ 2 < em.rows.length)
    (hc : (df.cols.drop 1).length = (em.cols.drop 1).length)
    (hfail : ∀ r ∈ df.rows, (resolveRow opt em r).toOption = none) :
    (main opt em df true).structuralError = none ∧
    (main opt em df true).completedOk = true ∧
    (main opt em df true).written = some [] := by
  rw [main_run opt em df h2 hc]
  refine ⟨rfl, rfl, ?_⟩
  show some _ = _
  rw [List.filterMap_eq_nil_iff.mpr hfail]

/-- Witness for C10: a batch whose only row is malformed completes with an
empty written table. -/
theorem C10_all_rows_failing_still_completes_witness :
    (main (fun _ => 0) wEm
        ⟨["id", "f1", "f2"],
         [[Value.str "S1", Value.str "bad", Value.num 3]]⟩ true).structuralError
      = none ∧
    (main (fun _ => 0) wEm
        ⟨["id", "f1", "f2"],
         [[Value.str "S1", Value.str "bad", Value.num 3]]⟩ true).completedOk
      = true ∧
    (main (fun _ => 0) wEm
        ⟨["id", "f1", "f2"],
         [[Value.str "S1", Value.str "bad", Value.num 3]]⟩ true).written
      = some [] :=
  C10_all_rows_failing_still_completes (fun _ => 0) wEm
    ⟨["id", "f1", "f2"], [[Value.str "S1", Value.str "bad", Value.num 3]]⟩
    (by decide) (by decide) (by decide)

end NirParser
